import Mathlib

/-!
Verification of the auth core of the replconnect admin console.

Shallow embedding of:
* `shared/sqlite-schema.ts` — data model and zod validation schemas;
* `server/storage.ts` (DatabaseStorage) — user and password-reset-token
  persistence operations;
* `server/auth.ts` — bcrypt/JWT helpers and the auth/admin middleware;
* `server/routes.ts` — the HTTP route handlers.

Modelling conventions:
* Machine time (`new Date()`) is an explicit `now : Nat` parameter
  (seconds); `+1 hour` is `+3600`, `24h` is `+86400`.
* The database is a `Storage` record of lists; drizzle queries become
  `List.find?`/`List.filter`/`List.map` with the same predicates.
* Randomness (`crypto.randomBytes`, `crypto.randomUUID`) is externalized:
  fresh ids and token strings are explicit parameters of the operations
  that the source generates them in.
* The bcrypt and JWT libraries are external collaborators: bcrypt is a
  pair of function parameters (`hashFn`, `compareFn`) carried in `Env`;
  the JWT codec is modelled concretely as a signed payload carrying a
  MAC over the secret, faithful to `jsonwebtoken`'s contract (verify
  succeeds iff the signature matches and the expiry lies in the future,
  returns a failure value on malformed input).
* JSON response bodies are a small `Json` inductive so that claims about
  field presence ("password is never serialized") are directly checkable.
-/

namespace ReplAdmin

/-! ## Data model (shared/sqlite-schema.ts) -/

/-- A row of the `users` table. -/
structure User where
  id : String
  username : String
  email : String
  password : String
  role : String
  name : String
  createdAt : Nat
deriving DecidableEq, Repr

/-- A row of the `password_reset_tokens` table. -/
structure PasswordResetToken where
  id : String
  userId : String
  token : String
  expiresAt : Nat
  usedAt : Option Nat
  createdAt : Nat
deriving DecidableEq, Repr

/-- A row of the `audit_logs` table (side-effect only, no control flow). -/
structure AuditLog where
  actorId : Option String
  actorName : String
  action : String
  targetId : Option String
  targetName : Option String
  details : Option String
  ipAddress : Option String
deriving DecidableEq, Repr

/-- `UserWithoutPassword`: the outward representation of a user. -/
structure UserPub where
  id : String
  username : String
  email : String
  role : String
  name : String
  createdAt : Nat
deriving DecidableEq, Repr

/-- storage.ts `excludePassword`: `const { password, ...rest } = user`. -/
def excludePassword (u : User) : UserPub :=
  { id := u.id, username := u.username, email := u.email,
    role := u.role, name := u.name, createdAt := u.createdAt }

/-- The whole persistent state reachable through the storage layer. -/
structure Storage where
  users : List User
  resetTokens : List PasswordResetToken
  auditLogs : List AuditLog
deriving DecidableEq, Repr

/-! ## Storage operations (server/storage.ts, class DatabaseStorage) -/

/-- `getUser(id)`: select the first user with this id. -/
def getUser (st : Storage) (id : String) : Option User :=
  st.users.find? (fun u => u.id == id)

/-- `getUserByUsername(username)`. -/
def getUserByUsername (st : Storage) (username : String) : Option User :=
  st.users.find? (fun u => u.username == username)

/-- `getUserByEmail(email)`. -/
def getUserByEmail (st : Storage) (email : String) : Option User :=
  st.users.find? (fun u => u.email == email)

/-- `createUser(insertUser)`: insert returning the new row. -/
def createUser (st : Storage) (u : User) : User × Storage :=
  (u, { st with users := st.users ++ [u] })

/-- A `Partial<InsertUser>` object: only present keys are updated. -/
structure UserUpdates where
  username : Option String := none
  email : Option String := none
  password : Option String := none
  name : Option String := none
  role : Option String := none
deriving DecidableEq, Repr

/-- Apply a partial update to one user row (`db.update(users).set(upd)`). -/
def applyUpdates (upd : UserUpdates) (u : User) : User :=
  { u with
    username := upd.username.getD u.username,
    email := upd.email.getD u.email,
    password := upd.password.getD u.password,
    name := upd.name.getD u.name,
    role := upd.role.getD u.role }

/-- `updateUser(id, updates)`: update rows matching the id, returning the
updated row (or `none` when no row matched). -/
def updateUser (st : Storage) (id : String) (upd : UserUpdates) :
    Option User × Storage :=
  match st.users.find? (fun u => u.id == id) with
  | none => (none, st)
  | some u =>
      (some (applyUpdates upd u),
       { st with users := st.users.map (fun x => if x.id == id then applyUpdates upd x else x) })

/-- `deleteUser(id)`: delete the row; the schema declares
`onDelete: "cascade"` on `password_reset_tokens.user_id`, so the user's
reset tokens are removed with the user. Returns whether a row was deleted. -/
def deleteUser (st : Storage) (id : String) : Bool × Storage :=
  let remaining := st.users.filter (fun u => !(u.id == id))
  (decide (remaining.length < st.users.length),
   { st with
     users := remaining,
     resetTokens := st.resetTokens.filter (fun t => !(t.userId == id)) })

/-- `getAllUsers()`: all users ordered by `createdAt` descending, with the
password stripped in the storage layer. `sortByCreatedDesc` is the
`orderBy(desc(users.createdAt))` of the query (stable insertion sort). -/
def insertByCreatedDesc (u : User) : List User → List User
  | [] => [u]
  | v :: rest =>
      if v.createdAt ≤ u.createdAt then u :: v :: rest
      else v :: insertByCreatedDesc u rest

/-- See `insertByCreatedDesc`. -/
def sortByCreatedDesc : List User → List User
  | [] => []
  | u :: rest => insertByCreatedDesc u (sortByCreatedDesc rest)

/-- `getAllUsers()`. -/
def getAllUsers (st : Storage) : List UserPub :=
  (sortByCreatedDesc st.users).map excludePassword

/-- `createPasswordResetToken(userId)`: the source draws
`crypto.randomBytes(32).toString("hex")` and a fresh row id; both are
explicit parameters here. Expiry is creation time plus one hour. -/
def createPasswordResetToken (st : Storage) (userId tokenId tokenVal : String)
    (now : Nat) : PasswordResetToken × Storage :=
  let t : PasswordResetToken :=
    { id := tokenId, userId := userId, token := tokenVal,
      expiresAt := now + 3600, usedAt := none, createdAt := now }
  (t, { st with resetTokens := st.resetTokens ++ [t] })

/-- `getValidPasswordResetToken(token)`: the row with this token string
whose `usedAt` is null and whose `expiresAt` is strictly after now. -/
def getValidPasswordResetToken (st : Storage) (tokenVal : String) (now : Nat) :
    Option PasswordResetToken :=
  st.resetTokens.find?
    (fun t => t.token == tokenVal && t.usedAt.isNone && decide (now < t.expiresAt))

/-- `markPasswordResetTokenUsed(id)`: set `usedAt = now` on rows with this id. -/
def markPasswordResetTokenUsed (st : Storage) (id : String) (now : Nat) : Storage :=
  { st with
    resetTokens := st.resetTokens.map
      (fun t => if t.id == id then { t with usedAt := some now } else t) }

/-- The row transformation of `invalidateUserPasswordResetTokens`:
set `usedAt = now` where `userId` matches and `usedAt` is null. -/
def invalidateTokenRow (userId : String) (now : Nat) (t : PasswordResetToken) :
    PasswordResetToken :=
  if t.userId == userId && t.usedAt.isNone then { t with usedAt := some now } else t

/-- `invalidateUserPasswordResetTokens(userId)`. -/
def invalidateUserPasswordResetTokens (st : Storage) (userId : String) (now : Nat) :
    Storage :=
  { st with resetTokens := st.resetTokens.map (invalidateTokenRow userId now) }

/-- `createAuditLog(log)`: append-only. -/
def createAuditLog (st : Storage) (log : AuditLog) : Storage :=
  { st with auditLogs := st.auditLogs ++ [log] }

/-! ## Session token codec and middleware (server/auth.ts) -/

/-- The JWT payload produced by `jwt.sign({id, username, role}, secret,
{expiresIn: "24h"})`: the three identity claims plus the timestamps the
library adds. -/
structure JwtPayload where
  id : String
  username : String
  role : String
  iat : Nat
  exp : Nat
deriving DecidableEq, Repr

/-- A token string as the verifier sees it: either a well-formed signed
payload carrying some signature value, or an unparsable string. -/
inductive Token where
  | signed (payload : JwtPayload) (sig : Nat)
  | malformed (raw : String)
deriving DecidableEq, Repr

/-- The result of a successful `jwt.verify`: the decoded claims. -/
structure Decoded where
  id : String
  username : String
  role : String
deriving DecidableEq, Repr

/-- Concrete stand-in for the HMAC the JWT library computes over the
payload with the process secret. -/
def strCode (s : String) : Nat :=
  s.foldl (fun a c => a * 131 + c.toNat + 7) 5

/-- See `strCode`. -/
def macSig (secret : String) (p : JwtPayload) : Nat :=
  strCode (secret ++ "|" ++ p.id ++ "|" ++ p.username ++ "|" ++ p.role)
    + 31 * p.iat + 37 * p.exp

/-- `generateToken(user)`: sign `{id, username, role}` with a 24-hour
expiry (`exp = iat + 86400`, as `jsonwebtoken` encodes `expiresIn: "24h"`). -/
def generateToken (secret : String) (user : UserPub) (now : Nat) : Token :=
  let p : JwtPayload :=
    { id := user.id, username := user.username, role := user.role,
      iat := now, exp := now + 86400 }
  .signed p (macSig secret p)

/-- `verifyToken(token)`: decode and check signature and expiry; any
failure yields `none` (the source wraps `jwt.verify` in try/catch and
returns `null`). `jsonwebtoken` rejects once `now ≥ exp`. -/
def verifyToken (secret : String) (tok : Token) (now : Nat) : Option Decoded :=
  match tok with
  | .malformed _ => none
  | .signed p sig =>
      if sig == macSig secret p && decide (now < p.exp) then
        some { id := p.id, username := p.username, role := p.role }
      else none

/-- The `Authorization` header as `authMiddleware` case-splits on it:
absent, present but not of the form `Bearer <token>`, or a bearer token. -/
inductive AuthHeader where
  | absent
  | nonBearer (raw : String)
  | bearer (tok : Token)
deriving DecidableEq, Repr

/-- The identity `authMiddleware` attaches to `req.user` (it casts the
decoded claims; only id, username and role are populated). -/
structure AuthedUser where
  id : String
  username : String
  role : String
deriving DecidableEq, Repr

/-- Outcome of a middleware chain: an early rejection response, or the
request proceeds to the handler with the attached identity. -/
inductive GateResult where
  | reject (status : Nat) (message : String)
  | proceed (user : AuthedUser)
deriving DecidableEq, Repr

/-- `authMiddleware`. -/
def authMiddleware (secret : String) (now : Nat) : AuthHeader → GateResult
  | .absent => .reject 401 "Unauthorized: No token provided"
  | .nonBearer _ => .reject 401 "Unauthorized: No token provided"
  | .bearer tok =>
      match verifyToken secret tok now with
      | none => .reject 401 "Unauthorized: Invalid token"
      | some d => .proceed { id := d.id, username := d.username, role := d.role }

/-- `adminMiddleware`, applied to whatever the previous middleware left:
an earlier rejection passes through untouched (express never reaches it);
otherwise the attached role must be `admin`. -/
def adminMiddleware : GateResult → GateResult
  | .reject s m => .reject s m
  | .proceed u =>
      if u.role == "admin" then .proceed u
      else .reject 403 "Forbidden: Admin access required"

/-- The `authMiddleware, adminMiddleware` chain guarding admin routes. -/
def adminGate (secret : String) (now : Nat) (h : AuthHeader) : GateResult :=
  adminMiddleware (authMiddleware secret now h)

/-! ## JSON response bodies -/

/-- The JSON values the handlers serialize with `res.json`. `tok` embeds a
session token (the `token` field of the login response). -/
inductive Json where
  | str (s : String)
  | num (n : Nat)
  | bool (b : Bool)
  | tok (t : Token)
  | obj (fields : List (String × Json))
  | arr (elems : List Json)

mutual

/-- All object keys occurring anywhere in a JSON value. -/
def jsonKeys : Json → List String
  | .str _ => []
  | .num _ => []
  | .bool _ => []
  | .tok _ => []
  | .obj fs => objKeys fs
  | .arr xs => arrKeys xs

/-- See `jsonKeys`. -/
def objKeys : List (String × Json) → List String
  | [] => []
  | (k, v) :: rest => k :: (jsonKeys v ++ objKeys rest)

/-- See `jsonKeys`. -/
def arrKeys : List Json → List String
  | [] => []
  | j :: rest => jsonKeys j ++ arrKeys rest

end

/-- Top-level field lookup in a JSON object. -/
def jsonLookup (j : Json) (key : String) : Option Json :=
  match j with
  | .obj fs => (fs.find? (fun kv => kv.1 == key)).map (fun kv => kv.2)
  | _ => none

/-- An HTTP response: status code and JSON body (`res.status(s).json(b)`;
`send()` with no body is an empty object). -/
structure Response where
  status : Nat
  body : Json

/-- Serialization of a `UserWithoutPassword` (`res.json(userWithoutPassword)`). -/
def userPubJson (p : UserPub) : Json :=
  .obj [("id", .str p.id), ("username", .str p.username), ("email", .str p.email),
        ("role", .str p.role), ("name", .str p.name), ("createdAt", .num p.createdAt)]

/-! ## Validation schemas (shared/sqlite-schema.ts, zod) -/

/-- JavaScript truthiness of an optional string: `undefined` and `""` are
falsy. The handlers guard several branches with it. -/
def strTruthy : Option String → Bool
  | none => false
  | some s => !(s == "")

/-- `loginSchema`: both fields nonempty. -/
def loginSchemaOk (username password : String) : Bool :=
  decide (1 ≤ username.length) && decide (1 ≤ password.length)

/-- `createUserSchema`. `emailOk` stands for zod's email format check. -/
def createUserSchemaOk (emailOk : String → Bool)
    (username email password name role : String) : Bool :=
  decide (3 ≤ username.length) && emailOk email && decide (6 ≤ password.length) &&
  decide (1 ≤ name.length) && (role == "admin" || role == "user")

/-- `updateUserSchema`: each field optional, validated when present. -/
def updateUserSchemaOk (emailOk : String → Bool)
    (username email password name role : Option String) : Bool :=
  (match username with | none => true | some s => decide (3 ≤ s.length)) &&
  (match email with | none => true | some s => emailOk s) &&
  (match password with | none => true | some s => decide (6 ≤ s.length)) &&
  (match name with | none => true | some s => decide (1 ≤ s.length)) &&
  (match role with | none => true | some s => s == "admin" || s == "user")

/-- `updateProfileSchema`: optional fields plus the refinement
`newPassword && !currentPassword → fail` (JS truthiness). -/
def updateProfileSchemaOk (emailOk : String → Bool)
    (name email currentPassword newPassword : Option String) : Bool :=
  (match name with | none => true | some s => decide (1 ≤ s.length)) &&
  (match email with | none => true | some s => emailOk s) &&
  (match newPassword with | none => true | some s => decide (6 ≤ s.length)) &&
  !(strTruthy newPassword && !(strTruthy currentPassword))

/-- `requestPasswordResetSchema`. -/
def requestPasswordResetSchemaOk (emailOk : String → Bool) (email : String) : Bool :=
  emailOk email

/-- `resetPasswordSchema`. -/
def resetPasswordSchemaOk (token password : String) : Bool :=
  decide (1 ≤ token.length) && decide (6 ≤ password.length)

/-- `res.status(400).json({message: "Validation error", errors: ...})`. -/
def validationErrorResponse (errs : Json) : Response :=
  { status := 400, body := .obj [("message", .str "Validation error"), ("errors", errs)] }

/-- `result.error.flatten().fieldErrors` for `loginSchema`. -/
def loginFieldErrors (username password : String) : Json :=
  .obj ((if 1 ≤ username.length then [] else
          [("username", Json.arr [.str "Username is required"])]) ++
        (if 1 ≤ password.length then [] else
          [("password", Json.arr [.str "Password is required"])]))

/-- `fieldErrors` for `createUserSchema`. -/
def createUserFieldErrors (emailOk : String → Bool)
    (username email password name role : String) : Json :=
  .obj ((if 3 ≤ username.length then [] else
          [("username", Json.arr [.str "Username must be at least 3 characters"])]) ++
        (if emailOk email then [] else
          [("email", Json.arr [.str "Invalid email address"])]) ++
        (if 6 ≤ password.length then [] else
          [("password", Json.arr [.str "Password must be at least 6 characters"])]) ++
        (if 1 ≤ name.length then [] else
          [("name", Json.arr [.str "Name is required"])]) ++
        (if role == "admin" || role == "user" then [] else
          [("role", Json.arr [.str "Invalid enum value"])]))

/-- `fieldErrors` for `updateUserSchema`. -/
def updateUserFieldErrors (emailOk : String → Bool)
    (username email password name role : Option String) : Json :=
  .obj ((match username with
         | some s => if 3 ≤ s.length then [] else
            [("username", Json.arr [.str "Username must be at least 3 characters"])]
         | none => []) ++
        (match email with
         | some s => if emailOk s then [] else
            [("email", Json.arr [.str "Invalid email address"])]
         | none => []) ++
        (match password with
         | some s => if 6 ≤ s.length then [] else
            [("password", Json.arr [.str "Password must be at least 6 characters"])]
         | none => []) ++
        (match name with
         | some s => if 1 ≤ s.length then [] else
            [("name", Json.arr [.str "Name is required"])]
         | none => []) ++
        (match role with
         | some s => if s == "admin" || s == "user" then [] else
            [("role", Json.arr [.str "Invalid enum value"])]
         | none => []))

/-- `fieldErrors` for `updateProfileSchema` (the refinement reports on
`currentPassword`). -/
def updateProfileFieldErrors (emailOk : String → Bool)
    (name email currentPassword newPassword : Option String) : Json :=
  .obj ((match name with
         | some s => if 1 ≤ s.length then [] else
            [("name", Json.arr [.str "Name is required"])]
         | none => []) ++
        (match email with
         | some s => if emailOk s then [] else
            [("email", Json.arr [.str "Invalid email address"])]
         | none => []) ++
        (match newPassword with
         | some s => if 6 ≤ s.length then [] else
            [("newPassword", Json.arr [.str "Password must be at least 6 characters"])]
         | none => []) ++
        (if strTruthy newPassword && !(strTruthy currentPassword) then
          [("currentPassword", Json.arr [.str "Current password is required to set a new password"])]
         else []))

/-- `fieldErrors` for `requestPasswordResetSchema`. -/
def requestResetFieldErrors (emailOk : String → Bool) (email : String) : Json :=
  .obj (if emailOk email then [] else
    [("email", Json.arr [.str "Invalid email address"])])

/-- `fieldErrors` for `resetPasswordSchema`. -/
def resetPasswordFieldErrors (token password : String) : Json :=
  .obj ((if 1 ≤ token.length then [] else
          [("token", Json.arr [.str "Token is required"])]) ++
        (if 6 ≤ password.length then [] else
          [("password", Json.arr [.str "Password must be at least 6 characters"])]))

/-! ## Route handlers (server/routes.ts) -/

/-- Ambient request context: the JWT secret, the clock, the bcrypt
functions and the email format check (external collaborators). -/
structure Env where
  secret : String
  now : Nat
  hashFn : String → String
  compareFn : String → String → Bool
  emailOk : String → Bool

/-- The literal 401 body both credential-failure branches of the login
handler return. -/
def invalidCredentialsResponse : Response :=
  { status := 401, body := .obj [("message", .str "Invalid username or password")] }

/-- `POST /api/auth/login`. -/
def loginRoute (env : Env) (st : Storage) (username password : String)
    (ip : Option String) : Response × Storage :=
  if loginSchemaOk username password then
    match getUserByUsername st username with
    | none => (invalidCredentialsResponse, st)
    | some user =>
        if env.compareFn password user.password then
          let pub := excludePassword user
          let token := generateToken env.secret pub env.now
          let st1 := createAuditLog st
            { actorId := some user.id, actorName := user.name, action := "login",
              targetId := none, targetName := none,
              details := some "User logged in successfully", ipAddress := ip }
          ({ status := 200, body := .obj [("token", .tok token), ("user", userPubJson pub)] }, st1)
        else (invalidCredentialsResponse, st)
  else (validationErrorResponse (loginFieldErrors username password), st)

/-- `GET /api/users` handler (after the middleware chain). -/
def getUsersRoute (st : Storage) : Response × Storage :=
  ({ status := 200, body := .arr ((getAllUsers st).map userPubJson) }, st)

/-- `POST /api/users` handler. `newId` is the database-generated row id. -/
def createUserRoute (env : Env) (st : Storage) (reqUser : AuthedUser)
    (username email password name role : String) (newId : String)
    (ip : Option String) : Response × Storage :=
  if createUserSchemaOk env.emailOk username email password name role then
    match getUserByUsername st username with
    | some _ => ({ status := 400, body := .obj [("message", .str "Username already exists")] }, st)
    | none =>
        match getUserByEmail st email with
        | some _ => ({ status := 400, body := .obj [("message", .str "Email already exists")] }, st)
        | none =>
            let hashed := env.hashFn password
            let created := createUser st
              { id := newId, username := username, email := email,
                password := hashed, role := role, name := name, createdAt := env.now }
            let user := created.fst
            let st1 := created.snd
            let st2 := createAuditLog st1
              { actorId := some reqUser.id, actorName := "System", action := "create_user",
                targetId := some user.id, targetName := some user.name,
                details := some "Created user", ipAddress := ip }
            ({ status := 201, body := userPubJson (excludePassword user) }, st2)
  else (validationErrorResponse (createUserFieldErrors env.emailOk username email password name role), st)

/-- Tail of `PATCH /api/users/:id` after the duplicate checks: hash the
password when present, update, audit, respond. -/
def patchUserFinish (env : Env) (st : Storage) (reqUser : AuthedUser) (id : String)
    (upd : UserUpdates) (ip : Option String) : Response × Storage :=
  let upd1 := if strTruthy upd.password then
      { upd with password := some (env.hashFn (upd.password.getD "")) } else upd
  match updateUser st id upd1 with
  | (none, st1) => ({ status := 404, body := .obj [("message", .str "User not found")] }, st1)
  | (some user, st1) =>
      let st2 := createAuditLog st1
        { actorId := some reqUser.id, actorName := "System", action := "update_user",
          targetId := some user.id, targetName := some user.name,
          details := some "Updated user", ipAddress := ip }
      ({ status := 200, body := userPubJson (excludePassword user) }, st2)

/-- Email duplicate check step of `PATCH /api/users/:id`. -/
def patchUserEmailStep (env : Env) (st : Storage) (reqUser : AuthedUser) (id : String)
    (existingUser : User) (upd : UserUpdates) (ip : Option String) : Response × Storage :=
  if strTruthy upd.email && !(upd.email.getD "" == existingUser.email) then
    match getUserByEmail st (upd.email.getD "") with
    | some _ => ({ status := 400, body := .obj [("message", .str "Email already exists")] }, st)
    | none => patchUserFinish env st reqUser id upd ip
  else patchUserFinish env st reqUser id upd ip

/-- `PATCH /api/users/:id` handler. -/
def patchUserRoute (env : Env) (st : Storage) (reqUser : AuthedUser) (id : String)
    (username email password name role : Option String) (ip : Option String) :
    Response × Storage :=
  if updateUserSchemaOk env.emailOk username email password name role then
    match getUser st id with
    | none => ({ status := 404, body := .obj [("message", .str "User not found")] }, st)
    | some existingUser =>
        let upd : UserUpdates :=
          { username := username, email := email, password := password,
            name := name, role := role }
        if strTruthy upd.username && !(upd.username.getD "" == existingUser.username) then
          match getUserByUsername st (upd.username.getD "") with
          | some _ => ({ status := 400, body := .obj [("message", .str "Username already exists")] }, st)
          | none => patchUserEmailStep env st reqUser id existingUser upd ip
        else patchUserEmailStep env st reqUser id existingUser upd ip
  else (validationErrorResponse (updateUserFieldErrors env.emailOk username email password name role), st)

/-- `DELETE /api/users/:id` handler. `req.user.name` is not populated by
the middleware, so the audit actor name falls back to `"System"`. -/
def deleteUserRoute (st : Storage) (reqUser : AuthedUser) (id : String)
    (ip : Option String) : Response × Storage :=
  if reqUser.id == id then
    ({ status := 400, body := .obj [("message", .str "Cannot delete your own account")] }, st)
  else
    match getUser st id with
    | none => ({ status := 404, body := .obj [("message", .str "User not found")] }, st)
    | some userToDelete =>
        let del := deleteUser st id
        if del.fst then
          let st2 := createAuditLog del.snd
            { actorId := some reqUser.id, actorName := "System", action := "delete_user",
              targetId := some id, targetName := some userToDelete.name,
              details := some "Deleted user", ipAddress := ip }
          ({ status := 204, body := .obj [] }, st2)
        else ({ status := 404, body := .obj [("message", .str "User not found")] }, del.snd)

/-- `POST /api/auth/request-password-reset`. `tokenId`/`tokenVal` are the
database row id and the random token string the source generates. Note:
the handler always answers 200 `success: true`, and when the user exists
it puts the token value in the response body with no environment check. -/
def requestPasswordResetRoute (env : Env) (st : Storage) (email : String)
    (tokenId tokenVal : String) : Response × Storage :=
  if requestPasswordResetSchemaOk env.emailOk email then
    match getUserByEmail st email with
    | none =>
        ({ status := 200,
           body := .obj [("message", .str "If an account exists with this email, a password reset link will be sent."),
                         ("success", .bool true)] }, st)
    | some user =>
        let st1 := invalidateUserPasswordResetTokens st user.id env.now
        let made := createPasswordResetToken st1 user.id tokenId tokenVal env.now
        ({ status := 200,
           body := .obj [("message", .str "If an account exists with this email, a password reset link will be sent."),
                         ("success", .bool true),
                         ("token", .str made.fst.token)] }, made.snd)
  else (validationErrorResponse (requestResetFieldErrors env.emailOk email), st)

/-- The 400 body of `POST /api/auth/reset-password` on a bad token. -/
def invalidTokenResponse : Response :=
  { status := 400, body := .obj [("message", .str "Invalid or expired reset token")] }

/-- `POST /api/auth/reset-password`. On a valid token: hash the new
password, update the owning user, then mark the token used. -/
def resetPasswordRoute (env : Env) (st : Storage) (tokenVal password : String) :
    Response × Storage :=
  if resetPasswordSchemaOk tokenVal password then
    match getValidPasswordResetToken st tokenVal env.now with
    | none => (invalidTokenResponse, st)
    | some resetToken =>
        let hashed := env.hashFn password
        let upd := updateUser st resetToken.userId { password := some hashed }
        let st2 := markPasswordResetTokenUsed upd.snd resetToken.id env.now
        ({ status := 200,
           body := .obj [("message", .str "Password has been reset successfully. You can now log in with your new password."),
                         ("success", .bool true)] }, st2)
  else (validationErrorResponse (resetPasswordFieldErrors tokenVal password), st)

/-- `GET /api/auth/verify-reset-token`. -/
def verifyResetTokenRoute (env : Env) (st : Storage) (tokenVal : Option String) :
    Response × Storage :=
  match tokenVal with
  | none => ({ status := 400, body := .obj [("message", .str "Token is required"), ("valid", .bool false)] }, st)
  | some tv =>
      match getValidPasswordResetToken st tv env.now with
      | none => ({ status := 400, body := .obj [("message", .str "Invalid or expired reset token"), ("valid", .bool false)] }, st)
      | some _ => ({ status := 200, body := .obj [("valid", .bool true)] }, st)

/-- `GET /api/profile` handler. -/
def getProfileRoute (st : Storage) (reqUser : AuthedUser) : Response × Storage :=
  match getUser st reqUser.id with
  | none => ({ status := 404, body := .obj [("message", .str "User not found")] }, st)
  | some user => ({ status := 200, body := userPubJson (excludePassword user) }, st)

/-- Whether the `updates` object of `PATCH /api/profile` stayed empty
(`Object.keys(updates).length === 0`). -/
def updEmpty (upd : UserUpdates) : Bool :=
  upd.username.isNone && upd.email.isNone && upd.password.isNone &&
  upd.name.isNone && upd.role.isNone

/-- Tail of `PATCH /api/profile` after the updates object is assembled. -/
def patchProfileFinish (st : Storage) (reqUser : AuthedUser) (user : User)
    (newPassword : Option String) (upd : UserUpdates) (ip : Option String) :
    Response × Storage :=
  if updEmpty upd then
    ({ status := 200, body := userPubJson (excludePassword user) }, st)
  else
    match updateUser st reqUser.id upd with
    | (none, st1) => ({ status := 404, body := .obj [("message", .str "User not found")] }, st1)
    | (some updatedUser, st1) =>
        let st2 := createAuditLog st1
          { actorId := some reqUser.id, actorName := user.name,
            action := if strTruthy newPassword then "password_change" else "profile_update",
            targetId := some reqUser.id, targetName := some updatedUser.name,
            details := some "Updated profile", ipAddress := ip }
        ({ status := 200, body := userPubJson (excludePassword updatedUser) }, st2)

/-- Password step of `PATCH /api/profile`: only when both fields are
truthy, re-verify the current password and stage the new hash. -/
def patchProfilePasswordStep (env : Env) (st : Storage) (reqUser : AuthedUser)
    (user : User) (currentPassword newPassword : Option String)
    (upd : UserUpdates) (ip : Option String) : Response × Storage :=
  if strTruthy newPassword && strTruthy currentPassword then
    if env.compareFn (currentPassword.getD "") user.password then
      patchProfileFinish st reqUser user newPassword
        { upd with password := some (env.hashFn (newPassword.getD "")) } ip
    else ({ status := 400, body := .obj [("message", .str "Current password is incorrect")] }, st)
  else patchProfileFinish st reqUser user newPassword upd ip

/-- `PATCH /api/profile` handler. -/
def patchProfileRoute (env : Env) (st : Storage) (reqUser : AuthedUser)
    (name email currentPassword newPassword : Option String) (ip : Option String) :
    Response × Storage :=
  if updateProfileSchemaOk env.emailOk name email currentPassword newPassword then
    match getUser st reqUser.id with
    | none => ({ status := 404, body := .obj [("message", .str "User not found")] }, st)
    | some user =>
        let upd0 : UserUpdates := {}
        let upd1 := if strTruthy name then { upd0 with name := name } else upd0
        if strTruthy email && !(email.getD "" == user.email) then
          match getUserByEmail st (email.getD "") with
          | some _ => ({ status := 400, body := .obj [("message", .str "Email already exists")] }, st)
          | none =>
              patchProfilePasswordStep env st reqUser user currentPassword newPassword
                { upd1 with email := email } ip
        else
          patchProfilePasswordStep env st reqUser user currentPassword newPassword upd1 ip
  else (validationErrorResponse (updateProfileFieldErrors env.emailOk name email currentPassword newPassword), st)

/-! ## Concrete fixtures used to instantiate the theorems -/

/-- A concrete environment with executable bcrypt and email stand-ins. -/
def envW : Env :=
  { secret := "test-secret", now := 1000,
    hashFn := fun s => "hashed:" ++ s,
    compareFn := fun p h => h == "hashed:" ++ p,
    emailOk := fun e => e.data.contains '@' }

/-- A seeded admin user. -/
def aliceW : User :=
  { id := "u1", username := "alice", email := "alice@example.com",
    password := "hashed:pw123456", role := "admin", name := "Alice", createdAt := 10 }

/-- A seeded regular user. -/
def bobW : User :=
  { id := "u2", username := "bob", email := "bob@example.com",
    password := "hashed:pw2", role := "user", name := "Bob", createdAt := 20 }

/-- An outstanding unused reset token of alice. -/
def tokOldW : PasswordResetToken :=
  { id := "t1", userId := "u1", token := "old-token", expiresAt := 1600,
    usedAt := none, createdAt := 900 }

/-- An already-consumed reset token of alice. -/
def tokUsedW : PasswordResetToken :=
  { id := "t2", userId := "u1", token := "used-token", expiresAt := 1600,
    usedAt := some 950, createdAt := 900 }

/-- An outstanding unused reset token of bob. -/
def tokBobW : PasswordResetToken :=
  { id := "t3", userId := "u2", token := "bob-token", expiresAt := 1600,
    usedAt := none, createdAt := 900 }

/-- A concrete store with two users and three reset tokens. -/
def stW : Storage :=
  { users := [aliceW, bobW], resetTokens := [tokOldW, tokUsedW, tokBobW], auditLogs := [] }

/-- The identity attached to a request bearing alice's session token. -/
def reqAdminW : AuthedUser := { id := "u1", username := "alice", role := "admin" }

/-- Alice's outward representation. -/
def pubW : UserPub := excludePassword aliceW

/-! ## Theorems -/

/-- Claim C2: verifying a token freshly issued by the session token codec
(no expiry elapsed) yields exactly the issued id, username and role; once
the 24-hour window has elapsed verification yields invalid; and malformed
input yields the invalid value rather than an exception. -/
theorem c2_codec_round_trip (secret : String) (user : UserPub) (issuedAt t : Nat) :
    (t < issuedAt + 86400 →
      verifyToken secret (generateToken secret user issuedAt) t =
        some { id := user.id, username := user.username, role := user.role }) ∧
    (issuedAt + 86400 ≤ t →
      verifyToken secret (generateToken secret user issuedAt) t = none) ∧
    (∀ raw : String, verifyToken secret (Token.malformed raw) t = none) := by
  refine ⟨?_, ?_, ?_⟩
  · intro h
    simp [generateToken, verifyToken, h]
  · intro h
    simp [generateToken, verifyToken, Nat.not_lt.mpr h]
  · intro raw
    rfl

/-- Witness for C2 at a concrete secret, user and clock. -/
theorem c2_witness :
    (5 : Nat) < 0 + 86400 ∧
    verifyToken "test-secret" (generateToken "test-secret" pubW 0) 5 =
      some { id := "u1", username := "alice", role := "admin" } := by
  refine ⟨by decide, ?_⟩
  have h := (c2_codec_round_trip "test-secret" pubW 0 5).1 (by decide)
  simpa [pubW, excludePassword, aliceW] using h

/-- Claim C3: on a route guarded by `authMiddleware, adminMiddleware`, an
absent header, a malformed header, or a token failing verification is
rejected 401 before the role is ever evaluated (the 401 holds for every
token, whatever role its payload claims); a verified token whose role is
not `admin` is rejected 403. -/
theorem c3_admin_gate_order (secret : String) (now : Nat) :
    (adminGate secret now AuthHeader.absent =
      GateResult.reject 401 "Unauthorized: No token provided") ∧
    (∀ raw, adminGate secret now (AuthHeader.nonBearer raw) =
      GateResult.reject 401 "Unauthorized: No token provided") ∧
    (∀ tok, verifyToken secret tok now = none →
      adminGate secret now (AuthHeader.bearer tok) =
        GateResult.reject 401 "Unauthorized: Invalid token") ∧
    (∀ tok d, verifyToken secret tok now = some d → ¬ d.role = "admin" →
      adminGate secret now (AuthHeader.bearer tok) =
        GateResult.reject 403 "Forbidden: Admin access required") := by
  refine ⟨rfl, fun raw => rfl, ?_, ?_⟩
  · intro tok h
    simp [adminGate, authMiddleware, adminMiddleware, h]
  · intro tok d h hrole
    simp [adminGate, authMiddleware, adminMiddleware, h, hrole]

/-- Witness for C3: a garbled bearer token is a 401, not a 403. -/
theorem c3_witness :
    verifyToken "test-secret" (Token.malformed "garbled") 1000 = none ∧
    adminGate "test-secret" 1000 (AuthHeader.bearer (Token.malformed "garbled")) =
      GateResult.reject 401 "Unauthorized: Invalid token" :=
  ⟨rfl, (c3_admin_gate_order "test-secret" 1000).2.2.1 (Token.malformed "garbled") rfl⟩

/-- Claim C4: an unknown username and a wrong password produce the
identical login failure — the same 401 response value — so the two causes
are indistinguishable to the caller. -/
theorem c4_login_failure_indistinguishable (env : Env) (st1 st2 : Storage)
    (name1 pw1 name2 pw2 : String) (ip1 ip2 : Option String) (user : User)
    (hs1 : loginSchemaOk name1 pw1 = true) (hs2 : loginSchemaOk name2 pw2 = true)
    (h1 : getUserByUsername st1 name1 = none)
    (h2 : getUserByUsername st2 name2 = some user)
    (hpw : env.compareFn pw2 user.password = false) :
    (loginRoute env st1 name1 pw1 ip1).fst = invalidCredentialsResponse ∧
    (loginRoute env st2 name2 pw2 ip2).fst = invalidCredentialsResponse ∧
    (loginRoute env st1 name1 pw1 ip1).fst = (loginRoute env st2 name2 pw2 ip2).fst := by
  have e1 : (loginRoute env st1 name1 pw1 ip1).fst = invalidCredentialsResponse := by
    simp [loginRoute, hs1, h1]
  have e2 : (loginRoute env st2 name2 pw2 ip2).fst = invalidCredentialsResponse := by
    simp [loginRoute, hs2, h2, hpw]
  exact ⟨e1, e2, e1.trans e2.symm⟩

/-- Witness for C4: unknown user `nobody` and wrong password for `alice`
get the same response. -/
theorem c4_witness :
    getUserByUsername stW "nobody" = none ∧
    getUserByUsername stW "alice" = some aliceW ∧
    (loginRoute envW stW "nobody" "xyz" none).fst = (loginRoute envW stW "alice" "wrong" none).fst := by
  refine ⟨rfl, rfl, ?_⟩
  exact (c4_login_failure_indistinguishable envW stW stW "nobody" "xyz" "alice" "wrong"
    none none aliceW (by decide) (by decide) rfl rfl rfl).2.2

/-- Claim C9: an authenticated admin request to delete a user whose target
id equals the actor's own id is rejected 400 and the store is untouched. -/
theorem c9_self_delete_rejected (st : Storage) (reqUser : AuthedUser) (id : String)
    (ip : Option String) (h : reqUser.id = id) :
    deleteUserRoute st reqUser id ip =
      ({ status := 400,
         body := Json.obj [("message", Json.str "Cannot delete your own account")] }, st) := by
  simp [deleteUserRoute, h]

/-- Witness for C9: alice cannot delete her own account. -/
theorem c9_witness :
    reqAdminW.id = "u1" ∧
    deleteUserRoute stW reqAdminW "u1" none =
      ({ status := 400,
         body := Json.obj [("message", Json.str "Cannot delete your own account")] }, stW) :=
  ⟨rfl, c9_self_delete_rejected stW reqAdminW "u1" none rfl⟩

/-- Claim C10: invalidating a user's reset tokens is frame-exact: the user
table and audit log are untouched, no token row appears or disappears, a
token of another user is unchanged, a token with a non-null `usedAt` keeps
its original timestamp, and only the user's unused tokens get
`usedAt = now`. -/
theorem c10_invalidate_frame (st : Storage) (uid : String) (now : Nat) :
    (invalidateUserPasswordResetTokens st uid now).users = st.users ∧
    (invalidateUserPasswordResetTokens st uid now).auditLogs = st.auditLogs ∧
    (invalidateUserPasswordResetTokens st uid now).resetTokens.length = st.resetTokens.length ∧
    ∀ i : Nat, ∀ t : PasswordResetToken, st.resetTokens[i]? = some t →
      (¬ t.userId = uid →
        (invalidateUserPasswordResetTokens st uid now).resetTokens[i]? = some t) ∧
      (∀ x : Nat, t.usedAt = some x →
        (invalidateUserPasswordResetTokens st uid now).resetTokens[i]? = some t) ∧
      (t.userId = uid → t.usedAt = none →
        (invalidateUserPasswordResetTokens st uid now).resetTokens[i]? =
          some { t with usedAt := some now }) := by
  refine ⟨rfl, rfl, by simp [invalidateUserPasswordResetTokens], ?_⟩
  intro i t ht
  have hmap : (invalidateUserPasswordResetTokens st uid now).resetTokens[i]? =
      some (invalidateTokenRow uid now t) := by
    simp [invalidateUserPasswordResetTokens, List.getElem?_map, ht]
  refine ⟨?_, ?_, ?_⟩
  · intro h
    rw [hmap]
    simp [invalidateTokenRow, h]
  · intro x hx
    rw [hmap]
    simp [invalidateTokenRow, hx]
  · intro h hnone
    rw [hmap]
    simp [invalidateTokenRow, h, hnone]

/-- After `invalidateUserPasswordResetTokens`, no token of the user passes
the validity filter, at any probe time. -/
theorem invalidated_filter_nil (l : List PasswordResetToken) (uid : String)
    (now time : Nat) :
    (l.map (invalidateTokenRow uid now)).filter
      (fun t => t.userId == uid && t.usedAt.isNone && decide (time < t.expiresAt)) = [] := by
  induction l with
  | nil => rfl
  | cons t rest ih =>
      simp only [List.map_cons, List.filter_cons]
      cases ha : (t.userId == uid) with
      | false => simp [invalidateTokenRow, ha, ih]
      | true =>
          cases hb : t.usedAt.isNone with
          | false => simp [invalidateTokenRow, ha, hb, ih]
          | true => simp [invalidateTokenRow, ha, hb, ih]

/-- Claim C1: requesting a password reset for an existing user's email
first maps every token row of that user through the invalidation
transform (marking each currently-unused one used), then appends exactly
one fresh token whose expiry is its creation time plus one hour; as a
consequence, at every probe time the user has at most one valid (unused,
unexpired) token afterwards. The user table is untouched. -/
theorem c1_request_reset_single_valid (env : Env) (st : Storage)
    (email tokenId tokenVal : String) (u : User)
    (hv : env.emailOk email = true)
    (hu : getUserByEmail st email = some u) :
    (requestPasswordResetRoute env st email tokenId tokenVal).snd.resetTokens =
      st.resetTokens.map (invalidateTokenRow u.id env.now) ++
        [{ id := tokenId, userId := u.id, token := tokenVal,
           expiresAt := env.now + 3600, usedAt := none, createdAt := env.now }] ∧
    (∀ time : Nat,
      ((requestPasswordResetRoute env st email tokenId tokenVal).snd.resetTokens.filter
        (fun t => t.userId == u.id && t.usedAt.isNone && decide (time < t.expiresAt))).length ≤ 1) ∧
    (requestPasswordResetRoute env st email tokenId tokenVal).snd.users = st.users := by
  have hr : (requestPasswordResetRoute env st email tokenId tokenVal).snd =
      { users := st.users,
        resetTokens := st.resetTokens.map (invalidateTokenRow u.id env.now) ++
          [{ id := tokenId, userId := u.id, token := tokenVal,
             expiresAt := env.now + 3600, usedAt := none, createdAt := env.now }],
        auditLogs := st.auditLogs } := by
    simp [requestPasswordResetRoute, requestPasswordResetSchemaOk, hv, hu,
          invalidateUserPasswordResetTokens, createPasswordResetToken]
  refine ⟨by rw [hr], ?_, by rw [hr]⟩
  intro time
  rw [hr]
  simp only [List.filter_append, List.length_append, invalidated_filter_nil,
             List.length_nil, Nat.zero_add]
  exact List.length_filter_le _ _

/-- Witness for C1: requesting a reset for alice at time 1000 leaves her
with at most one valid token when probed at time 2000. -/
theorem c1_witness :
    envW.emailOk "alice@example.com" = true ∧
    getUserByEmail stW "alice@example.com" = some aliceW ∧
    ((requestPasswordResetRoute envW stW "alice@example.com" "tid9" "fresh-token").snd.resetTokens.filter
      (fun t => t.userId == aliceW.id && t.usedAt.isNone && decide (2000 < t.expiresAt))).length ≤ 1 := by
  refine ⟨rfl, rfl, ?_⟩
  exact (c1_request_reset_single_valid envW stW "alice@example.com" "tid9" "fresh-token"
    aliceW rfl rfl).2.1 2000

/-- `updateUser` only touches the user table. -/
theorem updateUser_resetTokens (st : Storage) (id : String) (upd : UserUpdates) :
    (updateUser st id upd).snd.resetTokens = st.resetTokens := by
  rcases h : st.users.find? (fun u => u.id == id) with _ | u <;> simp [updateUser, h]

/-- After a successful `reset-password`, the consumed token string no
longer names a valid token, at any later probe time. -/
theorem reset_consumes_token (env : Env) (st : Storage) (tokenVal password : String)
    (rt : PasswordResetToken)
    (hnodup : (st.resetTokens.map (fun t => t.token)).Nodup)
    (hschema : resetPasswordSchemaOk tokenVal password = true)
    (hfound : getValidPasswordResetToken st tokenVal env.now = some rt) :
    ∀ t2 : Nat,
      getValidPasswordResetToken (resetPasswordRoute env st tokenVal password).snd tokenVal t2 = none := by
  intro t2
  have hpred := List.find?_some hfound
  have hmem := List.mem_of_find?_eq_some hfound
  simp only [Bool.and_eq_true, beq_iff_eq, Option.isNone_iff_eq_none,
             decide_eq_true_eq] at hpred
  obtain ⟨⟨htok, hunused⟩, hexp⟩ := hpred
  have hsnd : (resetPasswordRoute env st tokenVal password).snd.resetTokens =
      st.resetTokens.map
        (fun t => if t.id == rt.id then { t with usedAt := some env.now } else t) := by
    simp [resetPasswordRoute, hschema, hfound, markPasswordResetTokenUsed,
          updateUser_resetTokens]
  rw [getValidPasswordResetToken, hsnd]
  refine List.find?_eq_none.mpr ?_
  intro x hx
  obtain ⟨t, htmem, rfl⟩ := List.mem_map.mp hx
  by_cases hid : (t.id == rt.id) = true
  · simp [hid]
  · simp only [hid, Bool.false_eq_true, if_false, Bool.not_eq_true]
    cases hteq : (t.token == tokenVal) with
    | false => simp [hteq]
    | true =>
        exfalso
        have hfeq : (fun t : PasswordResetToken => t.token) t =
            (fun t : PasswordResetToken => t.token) rt := by
          simp only []
          rw [beq_iff_eq.mp hteq, htok]
        have hteq2 : t = rt := List.inj_on_of_nodup_map hnodup htmem hmem hfeq
        exact hid (by rw [hteq2]; exact beq_self_eq_true rt.id)

/-- Claim C5: a reset submission whose token string names no stored row,
a used row, or an expired row gets the `Invalid or expired reset token`
400 response with the store unchanged; and a token consumed by a
successful reset is invalid from then on, so any replay gets the same
rejection, again without mutation. -/
theorem c5_invalid_or_used_token_rejected (env : Env) (st : Storage)
    (tokenVal password : String)
    (hschema : resetPasswordSchemaOk tokenVal password = true) :
    ((∀ t ∈ st.resetTokens, t.token = tokenVal →
        t.usedAt ≠ none ∨ ¬ env.now < t.expiresAt) →
      resetPasswordRoute env st tokenVal password = (invalidTokenResponse, st)) ∧
    (∀ rt, (st.resetTokens.map (fun t => t.token)).Nodup →
      getValidPasswordResetToken st tokenVal env.now = some rt →
      ∀ t2 : Nat,
        getValidPasswordResetToken (resetPasswordRoute env st tokenVal password).snd tokenVal t2 = none) ∧
    (∀ rt (env2 : Env) (pw2 : String),
      (st.resetTokens.map (fun t => t.token)).Nodup →
      getValidPasswordResetToken st tokenVal env.now = some rt →
      resetPasswordSchemaOk tokenVal pw2 = true →
      resetPasswordRoute env2 (resetPasswordRoute env st tokenVal password).snd tokenVal pw2 =
        (invalidTokenResponse, (resetPasswordRoute env st tokenVal password).snd)) := by
  refine ⟨?_, ?_, ?_⟩
  · intro hall
    have hnone : getValidPasswordResetToken st tokenVal env.now = none := by
      refine List.find?_eq_none.mpr ?_
      intro t ht hp
      simp only [Bool.and_eq_true, beq_iff_eq, Option.isNone_iff_eq_none,
                 decide_eq_true_eq] at hp
      obtain ⟨⟨h1, h2⟩, h3⟩ := hp
      rcases hall t ht h1 with h | h
      · exact h h2
      · exact h h3
    simp [resetPasswordRoute, hschema, hnone]
  · intro rt hnodup hfound
    exact reset_consumes_token env st tokenVal password rt hnodup hschema hfound
  · intro rt env2 pw2 hnodup hfound hschema2
    have hnone := reset_consumes_token env st tokenVal password rt hnodup hschema hfound env2.now
    revert hnone
    generalize (resetPasswordRoute env st tokenVal password).snd = st2
    intro hnone
    simp [resetPasswordRoute, hschema2, hnone]

/-- Witness for C5: submitting alice's already-consumed token is rejected
with the 400 response and the store is returned unchanged. -/
theorem c5_witness :
    resetPasswordRoute envW stW "used-token" "newpw123" = (invalidTokenResponse, stW) := by
  refine (c5_invalid_or_used_token_rejected envW stW "used-token" "newpw123" (by decide)).1 ?_
  intro t ht hteq
  fin_cases ht <;> simp_all [tokOldW, tokUsedW, tokBobW]

/-- Claim C6, amended: every well-formed email gets a 200 `success: true`
response whether or not a user exists; when the user exists the reset
token value is included in the response body unconditionally — the
handler consults no production/development mode. -/
theorem c6_reset_request_response (env : Env) (st : Storage)
    (email tokenId tokenVal : String) (hv : env.emailOk email = true) :
    ((requestPasswordResetRoute env st email tokenId tokenVal).fst.status = 200 ∧
      jsonLookup (requestPasswordResetRoute env st email tokenId tokenVal).fst.body "success" =
        some (Json.bool true)) ∧
    (getUserByEmail st email = none →
      jsonLookup (requestPasswordResetRoute env st email tokenId tokenVal).fst.body "token" = none) ∧
    (∀ u, getUserByEmail st email = some u →
      jsonLookup (requestPasswordResetRoute env st email tokenId tokenVal).fst.body "token" =
        some (Json.str tokenVal)) := by
  rcases hu : getUserByEmail st email with _ | u <;>
    refine ⟨⟨?_, ?_⟩, ?_, ?_⟩ <;>
      simp [requestPasswordResetRoute, requestPasswordResetSchemaOk, hv, hu,
            jsonLookup, createPasswordResetToken]

/-- Counterexample for C6: the handler puts the reset token value in the
200 response body whenever the user exists; it reads no
production/development mode at all, so the same response is produced in a
production deployment, refuting "included only in non-production mode". -/
theorem c6_counterexample :
    ¬ (∀ production : Bool, production = true →
        jsonLookup ((requestPasswordResetRoute envW stW "alice@example.com" "tid" "tok256").fst.body)
          "token" = none) := by
  intro h
  have h1 := h true rfl
  have h2 : jsonLookup ((requestPasswordResetRoute envW stW "alice@example.com" "tid" "tok256").fst.body)
      "token" = some (Json.str "tok256") := rfl
  rw [h1] at h2
  exact Option.noConfusion h2

/-- Witness for C6 at a concrete store and email. -/
theorem c6_witness :
    envW.emailOk "alice@example.com" = true ∧
    ((requestPasswordResetRoute envW stW "alice@example.com" "tidX" "tokX").fst.status = 200 ∧
      jsonLookup (requestPasswordResetRoute envW stW "alice@example.com" "tidX" "tokX").fst.body "success" =
        some (Json.bool true)) :=
  ⟨rfl, (c6_reset_request_response envW stW "alice@example.com" "tidX" "tokX" rfl).1⟩

/-- A user-table update that carries no password key preserves every
stored (id, password) pair. -/
theorem updateUser_preserves_passwords (st : Storage) (id : String)
    (upd : UserUpdates) (hp : upd.password = none) :
    (updateUser st id upd).snd.users.map (fun u => (u.id, u.password)) =
      st.users.map (fun u => (u.id, u.password)) := by
  rcases h : st.users.find? (fun u => u.id == id) with _ | u
  · simp [updateUser, h]
  · simp only [updateUser, h]
    rw [List.map_map]
    refine List.map_congr_left ?_
    intro a ha
    by_cases hid : (a.id == id) = true
    · simp [Function.comp, hid, applyUpdates, hp]
    · simp [Function.comp, hid]

/-- `patchProfileFinish` with no staged password key preserves every
stored (id, password) pair. -/
theorem patchProfileFinish_preserves_passwords (st : Storage) (r : AuthedUser)
    (user : User) (np : Option String) (upd : UserUpdates) (ip : Option String)
    (hp : upd.password = none) :
    (patchProfileFinish st r user np upd ip).snd.users.map (fun u => (u.id, u.password)) =
      st.users.map (fun u => (u.id, u.password)) := by
  have hupd := updateUser_preserves_passwords st r.id upd hp
  simp only [patchProfileFinish]
  split
  · rfl
  · split
    · rename_i heq
      rw [heq] at hupd
      exact hupd
    · rename_i heq
      rw [heq] at hupd
      simpa [createAuditLog] using hupd

/-- `patchProfilePasswordStep` with no new password supplied preserves
every stored (id, password) pair. -/
theorem patchProfilePasswordStep_preserves_passwords (env : Env) (st : Storage)
    (r : AuthedUser) (user : User) (cp np : Option String) (upd : UserUpdates)
    (ip : Option String) (hnp : np = none) (hp : upd.password = none) :
    (patchProfilePasswordStep env st r user cp np upd ip).snd.users.map (fun u => (u.id, u.password)) =
      st.users.map (fun u => (u.id, u.password)) := by
  subst hnp
  simp only [patchProfilePasswordStep, strTruthy, Bool.false_and, Bool.false_eq_true,
             if_false]
  exact patchProfileFinish_preserves_passwords st r user none upd ip hp

/-- Claim C8, amended: with no new password supplied the handler never
changes any stored password (omitting both fields is a password no-op,
and a current password alone is also a no-op, not a partial update); a
new password without the current password is rejected by the schema with
no mutation; and a lone current password passes the schema — it is not a
validation error. -/
theorem c8_profile_password_pairing (env : Env) (st : Storage) (r : AuthedUser)
    (name email currentPassword newPassword : Option String) (ip : Option String) :
    (newPassword = none →
      (patchProfileRoute env st r name email currentPassword newPassword ip).snd.users.map
          (fun u => (u.id, u.password)) =
        st.users.map (fun u => (u.id, u.password))) ∧
    (∀ s, newPassword = some s → ¬ s = "" → currentPassword = none →
      patchProfileRoute env st r name email currentPassword newPassword ip =
        (validationErrorResponse
          (updateProfileFieldErrors env.emailOk name email currentPassword newPassword), st)) ∧
    (∀ cp : Option String, updateProfileSchemaOk env.emailOk none none cp none = true) := by
  refine ⟨?_, ?_, fun cp => rfl⟩
  · intro hnp
    have hupd1 : (if strTruthy name then { ({} : UserUpdates) with name := name }
        else ({} : UserUpdates)).password = none := by
      cases h : strTruthy name <;> simp [h]
    simp only [patchProfileRoute]
    split
    · split
      · rfl
      · split
        · split
          · rfl
          · exact patchProfilePasswordStep_preserves_passwords env st r _ currentPassword
              newPassword _ ip hnp (by simpa using hupd1)
        · exact patchProfilePasswordStep_preserves_passwords env st r _ currentPassword
            newPassword _ ip hnp hupd1
    · rfl
  · intro s hs hne hcp
    have hschema : updateProfileSchemaOk env.emailOk name email currentPassword newPassword = false := by
      simp [updateProfileSchemaOk, hs, hcp, strTruthy, hne]
    simp [patchProfileRoute, hschema]

/-- Counterexample for C8: supplying a current password without a new
password passes `updateProfileSchema` and yields a 200 no-op response,
not the validation error the claim requires. -/
theorem c8_counterexample :
    updateProfileSchemaOk envW.emailOk none none (some "pw123456") none = true ∧
    (patchProfileRoute envW stW reqAdminW none none (some "pw123456") none none).fst.status = 200 :=
  ⟨rfl, rfl⟩

/-- Witness for C8: a lone current password leaves every stored password
unchanged. -/
theorem c8_witness :
    (patchProfileRoute envW stW reqAdminW none none (some "pw123456") none none).snd.users.map
        (fun u => (u.id, u.password)) =
      stW.users.map (fun u => (u.id, u.password)) :=
  (c8_profile_password_pairing envW stW reqAdminW none none (some "pw123456") none none).1 rfl

/-- The serialized user carries exactly the non-password columns. -/
theorem jsonKeys_userPubJson (p : UserPub) :
    jsonKeys (userPubJson p) = ["id", "username", "email", "role", "name", "createdAt"] := rfl

/-- No `password` key in a serialized user. -/
theorem password_notin_userPubJson (p : UserPub) :
    "password" ∉ jsonKeys (userPubJson p) := by
  rw [jsonKeys_userPubJson]
  decide

/-- No `password` key in a serialized user array. -/
theorem password_notin_userArr (l : List UserPub) :
    "password" ∉ jsonKeys (Json.arr (l.map userPubJson)) := by
  induction l with
  | nil => simp [jsonKeys, arrKeys]
  | cons p rest ih =>
      intro hmem
      rw [show jsonKeys (Json.arr ((p :: rest).map userPubJson)) =
            jsonKeys (userPubJson p) ++ jsonKeys (Json.arr (rest.map userPubJson)) from rfl] at hmem
      rcases List.mem_append.mp hmem with h | h
      · exact password_notin_userPubJson p h
      · exact ih h

/-- No `password` key in the login success body. -/
theorem password_notin_login_body (t : Token) (p : UserPub) :
    "password" ∉ jsonKeys (Json.obj [("token", Json.tok t), ("user", userPubJson p)]) := by
  rw [show jsonKeys (Json.obj [("token", Json.tok t), ("user", userPubJson p)]) =
        ["token", "user", "id", "username", "email", "role", "name", "createdAt"] from rfl]
  decide

/-- Login: a 200 response body has no `password` key. -/
theorem loginRoute_success_no_password (env : Env) (st : Storage) (u p : String)
    (ip : Option String) :
    (loginRoute env st u p ip).fst.status = 200 →
    "password" ∉ jsonKeys (loginRoute env st u p ip).fst.body := by
  simp only [loginRoute]
  split
  · split
    · intro h
      simp [invalidCredentialsResponse] at h
    · split
      · intro _
        exact password_notin_login_body _ _
      · intro h
        simp [invalidCredentialsResponse] at h
  · intro h
    simp [validationErrorResponse] at h

/-- User list: the body never has a `password` key. -/
theorem getUsersRoute_no_password (st : Storage) :
    "password" ∉ jsonKeys (getUsersRoute st).fst.body := by
  show "password" ∉ jsonKeys (Json.arr ((getAllUsers st).map userPubJson))
  exact password_notin_userArr (getAllUsers st)

/-- Create user: a 201 response body has no `password` key. -/
theorem createUserRoute_success_no_password (env : Env) (st : Storage)
    (r : AuthedUser) (u e pw n ro nid : String) (ip : Option String) :
    (createUserRoute env st r u e pw n ro nid ip).fst.status = 201 →
    "password" ∉ jsonKeys (createUserRoute env st r u e pw n ro nid ip).fst.body := by
  simp only [createUserRoute]
  split
  · split
    · intro h
      simp at h
    · split
      · intro h
        simp at h
      · intro _
        exact password_notin_userPubJson _
  · intro h
    simp [validationErrorResponse] at h

/-- `patchUserFinish`: a 200 response body has no `password` key. -/
theorem patchUserFinish_success_no_password (env : Env) (st : Storage)
    (r : AuthedUser) (id : String) (upd : UserUpdates) (ip : Option String) :
    (patchUserFinish env st r id upd ip).fst.status = 200 →
    "password" ∉ jsonKeys (patchUserFinish env st r id upd ip).fst.body := by
  simp only [patchUserFinish]
  split
  · intro h
    simp at h
  · intro _
    exact password_notin_userPubJson _

/-- `patchUserEmailStep`: a 200 response body has no `password` key. -/
theorem patchUserEmailStep_success_no_password (env : Env) (st : Storage)
    (r : AuthedUser) (id : String) (existingUser : User) (upd : UserUpdates)
    (ip : Option String) :
    (patchUserEmailStep env st r id existingUser upd ip).fst.status = 200 →
    "password" ∉ jsonKeys (patchUserEmailStep env st r id existingUser upd ip).fst.body := by
  simp only [patchUserEmailStep]
  split
  · split
    · intro h
      simp at h
    · exact patchUserFinish_success_no_password env st r id upd ip
  · exact patchUserFinish_success_no_password env st r id upd ip

/-- Update user: a 200 response body has no `password` key. -/
theorem patchUserRoute_success_no_password (env : Env) (st : Storage)
    (r : AuthedUser) (id : String) (un em pw n ro : Option String) (ip : Option String) :
    (patchUserRoute env st r id un em pw n ro ip).fst.status = 200 →
    "password" ∉ jsonKeys (patchUserRoute env st r id un em pw n ro ip).fst.body := by
  simp only [patchUserRoute]
  split
  · split
    · intro h
      simp at h
    · split
      · split
        · intro h
          simp at h
        · exact patchUserEmailStep_success_no_password env st r id _ _ ip
      · exact patchUserEmailStep_success_no_password env st r id _ _ ip
  · intro h
    simp [validationErrorResponse] at h

/-- Profile read: a 200 response body has no `password` key. -/
theorem getProfileRoute_success_no_password (st : Storage) (r : AuthedUser) :
    (getProfileRoute st r).fst.status = 200 →
    "password" ∉ jsonKeys (getProfileRoute st r).fst.body := by
  simp only [getProfileRoute]
  split
  · intro h
    simp at h
  · intro _
    exact password_notin_userPubJson _

/-- `patchProfileFinish`: a 200 response body has no `password` key. -/
theorem patchProfileFinish_success_no_password (st : Storage) (r : AuthedUser)
    (user : User) (np : Option String) (upd : UserUpdates) (ip : Option String) :
    (patchProfileFinish st r user np upd ip).fst.status = 200 →
    "password" ∉ jsonKeys (patchProfileFinish st r user np upd ip).fst.body := by
  simp only [patchProfileFinish]
  split
  · intro _
    exact password_notin_userPubJson _
  · split
    · intro h
      simp at h
    · intro _
      exact password_notin_userPubJson _

/-- `patchProfilePasswordStep`: a 200 response body has no `password` key. -/
theorem patchProfilePasswordStep_success_no_password (env : Env) (st : Storage)
    (r : AuthedUser) (user : User) (cp np : Option String) (upd : UserUpdates)
    (ip : Option String) :
    (patchProfilePasswordStep env st r user cp np upd ip).fst.status = 200 →
    "password" ∉ jsonKeys (patchProfilePasswordStep env st r user cp np upd ip).fst.body := by
  simp only [patchProfilePasswordStep]
  split
  · split
    · exact patchProfileFinish_success_no_password st r user np _ ip
    · intro h
      simp at h
  · exact patchProfileFinish_success_no_password st r user np upd ip

/-- Profile update: a 200 response body has no `password` key. -/
theorem patchProfileRoute_success_no_password (env : Env) (st : Storage)
    (r : AuthedUser) (n em cp np : Option String) (ip : Option String) :
    (patchProfileRoute env st r n em cp np ip).fst.status = 200 →
    "password" ∉ jsonKeys (patchProfileRoute env st r n em cp np ip).fst.body := by
  simp only [patchProfileRoute]
  split
  · split
    · intro h
      simp at h
    · split
      · split
        · intro h
          simp at h
        · exact patchProfilePasswordStep_success_no_password env st r _ cp np _ ip
      · exact patchProfilePasswordStep_success_no_password env st r _ cp np _ ip
  · intro h
    simp [validationErrorResponse] at h

/-- Claim C7: every outward-facing user representation the service
produces — the login response, the user list, the create and update
responses, and the profile get/update responses — omits the password
field. -/
theorem c7_password_never_serialized :
    (∀ env st u p ip, (loginRoute env st u p ip).fst.status = 200 →
      "password" ∉ jsonKeys (loginRoute env st u p ip).fst.body) ∧
    (∀ st, "password" ∉ jsonKeys (getUsersRoute st).fst.body) ∧
    (∀ env st r u e pw n ro nid ip,
      (createUserRoute env st r u e pw n ro nid ip).fst.status = 201 →
      "password" ∉ jsonKeys (createUserRoute env st r u e pw n ro nid ip).fst.body) ∧
    (∀ env st r id un em pw n ro ip,
      (patchUserRoute env st r id un em pw n ro ip).fst.status = 200 →
      "password" ∉ jsonKeys (patchUserRoute env st r id un em pw n ro ip).fst.body) ∧
    (∀ st r, (getProfileRoute st r).fst.status = 200 →
      "password" ∉ jsonKeys (getProfileRoute st r).fst.body) ∧
    (∀ env st r n em cp np ip, (patchProfileRoute env st r n em cp np ip).fst.status = 200 →
      "password" ∉ jsonKeys (patchProfileRoute env st r n em cp np ip).fst.body) :=
  ⟨fun env st u p ip => loginRoute_success_no_password env st u p ip,
   fun st => getUsersRoute_no_password st,
   fun env st r u e pw n ro nid ip => createUserRoute_success_no_password env st r u e pw n ro nid ip,
   fun env st r id un em pw n ro ip => patchUserRoute_success_no_password env st r id un em pw n ro ip,
   fun st r => getProfileRoute_success_no_password st r,
   fun env st r n em cp np ip => patchProfileRoute_success_no_password env st r n em cp np ip⟩

/-- Witness for C7: alice's profile read is a 200 with no password key. -/
theorem c7_witness :
    (getProfileRoute stW reqAdminW).fst.status = 200 ∧
    "password" ∉ jsonKeys (getProfileRoute stW reqAdminW).fst.body :=
  ⟨rfl, c7_password_never_serialized.2.2.2.2.1 stW reqAdminW rfl⟩

/-- Witness for C10: alice's already-used token keeps its `usedAt = 950`
when her tokens are invalidated at time 1000. -/
theorem c10_witness :
    stW.resetTokens[1]? = some tokUsedW ∧ tokUsedW.usedAt = some 950 ∧
    (invalidateUserPasswordResetTokens stW "u1" 1000).resetTokens[1]? = some tokUsedW := by
  refine ⟨rfl, rfl, ?_⟩
  exact ((c10_invalidate_frame stW "u1" 1000).2.2.2 1 tokUsedW rfl).2.1 950 rfl

end ReplAdmin

